import Mathlib

/-!
Shallow embedding of the build-driver / compiler-interception subsystem of
cargo-call-stack (src/main.rs).  External effects (subprocess results, the
filesystem, the child build process) are supplied by a `World` record and the
run function returns, besides its outcome, a trace of the observable actions
(subprocess launches, echoed diagnostic lines, touched files, the analyzer
call).  The `wrapper` module is not part of the sources; the two marker-line
constants it provides are therefore passed in as a `Markers` parameter.
-/

namespace CargoCallStack

/-- Rust `str::starts_with` on a literal pattern, on the character sequence. -/
def strStartsWith (s p : String) : Bool := p.data.isPrefixOf s.data

/-- The suffix of `s` after a matched leading literal `p`
(`&line[p.len()..]`): when `p` was matched as a leading pattern, dropping
`p.data.length` characters is exactly the byte slice past `p`. -/
def strDropLen (s p : String) : String := String.mk (s.data.drop p.data.length)

/-- CLI arguments (struct `Args`, src/main.rs lines 24-57).  `example` is a
Lean keyword, hence the trailing underscore.  The output format is kept as
its token string; the CLI default is "dot". -/
structure Args where
  target : Option String
  bin : Option String
  example_ : Option String
  features : Option String
  all_features : Bool
  verbose : Bool
  format : String
  start : Option String
deriving DecidableEq

/-- `rustc_version::version_meta()` result; only the host triple is used. -/
structure Meta where
  host : String
deriving DecidableEq

/-- `cargo_project::Project` as used here: `project.target()` and the parent
directory of `project.toml()`. -/
structure Project where
  targetDefault : Option String
  rootPath : String
deriving DecidableEq

/-- Child exit status: `some c` is exit with code `c`; `none` is termination
without an exit code (e.g. by signal).  `success()` holds exactly for code 0;
`code()` is the value itself. -/
abbrev ExitStatus := Option Int

def statusSuccess (s : ExitStatus) : Bool := s = some 0

/-- Modelled from the spec: the two fixed, distinct literal marker-line
strings `COMPILER_BUILTINS_RLIB_PATH_MARKER` and
`COMPILER_BUILTINS_LL_PATH_MARKER` live in the `wrapper` module, which is not
among the sources; they are threaded through as parameters. -/
structure Markers where
  rlibMarker : String
  llMarker : String
deriving DecidableEq

/-- External world: results of every fallible external operation `run`
performs, in source order, plus the child build's diagnostic stream. -/
structure World where
  wrapperEnvSet : Bool
  wrapperResult : Except String Int
  versionMeta : Except String Meta
  currentDir : Except String String
  projectQuery : Except String Project
  rustcCfgOut : Except String (List String)
  currentExe : Except String String
  touchOk : String → Bool
  srcDirExists : Bool
  walkSrc : List (Except String String)
  walkRoot : List (Except String String)
  spawnResult : Except String Unit
  stderrItems : List (Except String String)
  waitResult : Except String ExitStatus
  pathResult : Except String String
  analyzeResult : Except String Int

/-- Artifact selection (src/main.rs lines 80-84): exactly one of
`--example`/`--bin` must be present, otherwise the run bails. -/
def fileSel (args : Args) : Option String :=
  match args.example_, args.bin with
  | some f, none => some f
  | none, some f => some f
  | _, _ => none

/-- Toolchain-probe scan (src/main.rs lines 98-104): a cfg line of the form
"target_os=" followed by the literal value "\"none\"" marks a no-std target. -/
def isNoStd (cfgLines : List String) : Bool :=
  cfgLines.any fun line =>
    strStartsWith line "target_os=" && strDropLen line "target_os=" == "\"none\""

/-- -Zbuild-std flag selection (src/main.rs lines 134-138). -/
def buildStd (is_no_std : Bool) : String :=
  if is_no_std then "-Zbuild-std=core,alloc,compiler_builtins" else "-Zbuild-std"

/-- The profile is fixed to `Profile::Release` (src/main.rs line 78), so
`profile.is_release()` is true. -/
def profileIsRelease : Bool := true

/-- The argument vector of the cargo invocation assembled at
src/main.rs lines 107-151, in source order. -/
def cargoArgs (args : Args) (file : String) (is_no_std : Bool) : List String :=
  ["rustc"]
  ++ (match args.target with
      | some t => ["--target", t]
      | none => [])
  ++ (if args.all_features then ["--all-features"]
      else match args.features with
        | some fs => ["--features", fs]
        | none => [])
  ++ (if args.example_.isSome then ["--example", file] else [])
  ++ (if args.bin.isSome then ["--bin", file] else [])
  ++ (if profileIsRelease then ["--release"] else [])
  ++ [buildStd is_no_std, "--color=always", "--",
      "--emit=llvm-ir,obj", "-C", "embed-bitcode=yes", "-C", "lto=fat"]

/-- Target-triple resolution exactly as written at src/main.rs lines 91 and
217: `project.target().or(target_flag).unwrap_or(&host)`. -/
def resolvedTarget (projectTarget targetFlag : Option String) (host : String) : String :=
  (projectTarget.or targetFlag).getD host

/-- Last path component: the characters after the final slash. -/
def lastComponent (cs : List Char) : List Char :=
  (cs.reverse.takeWhile (fun c => c ≠ '/')).reverse

/-- Rust `Path::extension` modelled on the path string: the portion of the
last component after its last dot; `none` when there is no dot or when the
only dot is the leading character.  (The special components "." and ".." are
not singled out; they carry extension "rs" in neither semantics.) -/
def extensionOf (p : String) : Option String :=
  let name := lastComponent p.data
  let tail := name.reverse.takeWhile (fun c => c ≠ '.')
  if tail.length = name.length then none
  else if tail.length + 1 = name.length then none
  else some (String.mk tail.reverse)

/-- `path.extension().map(|ext| ext == "rs").unwrap_or(false)`
(src/main.rs line 170). -/
def rsExt (p : String) : Bool := extensionOf p == some "rs"

/-- The directory-walk fallback of the rebuild forcer (src/main.rs lines
166-174): each walk entry may itself be an error (propagated); the first
entry whose path has extension "rs" has its times set and the walk stops.
The io error text of a failing `set_file_times` is not observable in the
sources; any message stands for it. -/
def walkTouch (touchOk : String → Bool) : List (Except String String) → Except String (List String)
  | [] => .ok []
  | .error e :: _ => .error e
  | .ok p :: rest =>
    if rsExt p then
      if touchOk p then .ok [p]
      else .error ("failed to set file times: " ++ p)
    else walkTouch touchOk rest

/-- The rebuild forcer (src/main.rs lines 157-176): touch src/main.rs; if
that fails, touch src/lib.rs; if that also fails, walk the src directory if
it exists, else the project root.  Returns the files whose times were set. -/
def forceRebuild (touchOk : String → Bool) (srcExists : Bool)
    (walkSrc walkRoot : List (Except String String)) (root : String) :
    Except String (List String) :=
  if touchOk (root ++ "/src/main.rs") then .ok [root ++ "/src/main.rs"]
  else if touchOk (root ++ "/src/lib.rs") then .ok [root ++ "/src/lib.rs"]
  else walkTouch touchOk (if srcExists then walkSrc else walkRoot)

/-- `file.replace('-', "_")` (a character-pattern replace). -/
def replaceHyphens (s : String) : String :=
  String.mk (s.data.map fun c => if c = '-' then '_' else c)

/-- The symbol-disambiguation string derived at src/main.rs line 216: the
artifact name with hyphens replaced by underscores and a trailing "-". -/
def symbolPfx (file : String) : String := replaceHyphens file ++ "-"

/-- Result of the side-channel reader loop (src/main.rs lines 184-197):
the two marker slots, the echoed lines in order, and the read error that
aborted the loop, if any. -/
structure ReadOut where
  rlib : Option String
  ll : Option String
  echoed : List String
  readErr : Option String
deriving DecidableEq

/-- The side-channel reader loop (src/main.rs lines 186-197): a line
starting with the rlib marker stores the suffix in the rlib slot; otherwise
a line starting with the ll marker stores the suffix in the ll slot;
otherwise the line is echoed.  A failing line read aborts the loop. -/
def readLoop (ma : Markers) :
    List (Except String String) → Option String → Option String → List String → ReadOut
  | [], r, l, acc => ⟨r, l, acc, none⟩
  | .error e :: _, r, l, acc => ⟨r, l, acc, some e⟩
  | .ok line :: rest, r, l, acc =>
    if strStartsWith line ma.rlibMarker then
      readLoop ma rest (some (strDropLen line ma.rlibMarker)) l acc
    else if strStartsWith line ma.llMarker then
      readLoop ma rest r (some (strDropLen line ma.llMarker)) acc
    else
      readLoop ma rest r l (acc ++ [line])

/-- Outcome of `run`: a returned exit code, an error value (printed by
`main` with an "error: " lead), or an `expect` failure that unwinds. -/
inductive Outcome where
  | ok (ec : Int)
  | err (msg : String)
  | panicked (msg : String)
deriving DecidableEq

/-- A subprocess launch attempt, in order of occurrence. -/
structure Spawn where
  program : String
  argv : List String
deriving DecidableEq

/-- The argument record of the final `analyze` handoff (src/main.rs
line 219). -/
structure AnalyzeCall where
  path : String
  rlibPath : String
  llPath : String
  target : String
  symPfx : String
  start : Option String
  format : String
deriving DecidableEq

/-- Everything observable about one execution of `run`. -/
structure RunResult where
  outcome : Outcome
  spawns : List Spawn
  echoed : List String
  touched : List String
  analyzeCall : Option AnalyzeCall
  verboseOut : List String
deriving DecidableEq

/-- The whole of `run` (src/main.rs lines 70-220) over a `World`.  The
subprocess trace records, in order: `rustc -vV` (inside
`rustc_version::version_meta`), the `rustc --print=cfg` probe, and the cargo
build.  Wrapper mode (sentinel environment variable set) is dispatched to the
`wrapper` module, whose outcome is external to the sources. -/
def run (ma : Markers) (args : Args) (w : World) : RunResult :=
  if w.wrapperEnvSet then
    { outcome := match w.wrapperResult with
        | .ok ec => .ok ec
        | .error e => .err e,
      spawns := [], echoed := [], touched := [], analyzeCall := none, verboseOut := [] }
  else
    match fileSel args with
    | none =>
      { outcome := .err "Please specify either --example <NAME> or --bin <NAME>.",
        spawns := [], echoed := [], touched := [], analyzeCall := none, verboseOut := [] }
    | some file =>
      let sp0 : List Spawn := [⟨"rustc", ["-vV"]⟩]
      match w.versionMeta with
      | .error e =>
        { outcome := .err e, spawns := sp0, echoed := [], touched := [],
          analyzeCall := none, verboseOut := [] }
      | .ok mt =>
        match w.currentDir with
        | .error e =>
          { outcome := .err e, spawns := sp0, echoed := [], touched := [],
            analyzeCall := none, verboseOut := [] }
        | .ok _cwd =>
          match w.projectQuery with
          | .error e =>
            { outcome := .err e, spawns := sp0, echoed := [], touched := [],
              analyzeCall := none, verboseOut := [] }
          | .ok project =>
            let host := mt.host
            let targetFlag := args.target
            let target := resolvedTarget project.targetDefault targetFlag host
            let sp1 := sp0 ++ [⟨"rustc", ["--print=cfg", "--target", target]⟩]
            match w.rustcCfgOut with
            | .error e =>
              { outcome := .err e, spawns := sp1, echoed := [], touched := [],
                analyzeCall := none, verboseOut := [] }
            | .ok cfg =>
              let ns := isNoStd cfg
              let cargoA := cargoArgs args file ns
              match w.currentExe with
              | .error e =>
                { outcome := .err e, spawns := sp1, echoed := [], touched := [],
                  analyzeCall := none, verboseOut := [] }
              | .ok _exe =>
                match forceRebuild w.touchOk w.srcDirExists w.walkSrc w.walkRoot
                    project.rootPath with
                | .error e =>
                  { outcome := .err e, spawns := sp1, echoed := [], touched := [],
                    analyzeCall := none, verboseOut := [] }
                | .ok touchedFiles =>
                  let vOut := if args.verbose
                    then [String.intercalate " " ("cargo" :: cargoA)] else []
                  let sp2 := sp1 ++ [⟨"cargo", cargoA⟩]
                  match w.spawnResult with
                  | .error e =>
                    { outcome := .err e, spawns := sp2, echoed := [],
                      touched := touchedFiles, analyzeCall := none, verboseOut := vOut }
                  | .ok _ =>
                    let ro := readLoop ma w.stderrItems none none []
                    match ro.readErr with
                    | some e =>
                      { outcome := .err e, spawns := sp2, echoed := ro.echoed,
                        touched := touchedFiles, analyzeCall := none, verboseOut := vOut }
                    | none =>
                      match w.waitResult with
                      | .error e =>
                        { outcome := .err e, spawns := sp2, echoed := ro.echoed,
                          touched := touchedFiles, analyzeCall := none, verboseOut := vOut }
                      | .ok status =>
                        if statusSuccess status then
                          match ro.rlib with
                          | none =>
                            { outcome := .panicked "`compiler_builtins` was not linked",
                              spawns := sp2, echoed := ro.echoed, touched := touchedFiles,
                              analyzeCall := none, verboseOut := vOut }
                          | some rlibPath =>
                            match ro.ll with
                            | none =>
                              { outcome := .panicked "`compiler_builtins` LLVM IR unavailable",
                                spawns := sp2, echoed := ro.echoed, touched := touchedFiles,
                                analyzeCall := none, verboseOut := vOut }
                            | some llPath =>
                              match w.pathResult with
                              | .error e =>
                                { outcome := .err e, spawns := sp2, echoed := ro.echoed,
                                  touched := touchedFiles, analyzeCall := none,
                                  verboseOut := vOut }
                              | .ok path =>
                                let call : AnalyzeCall :=
                                  ⟨path, rlibPath, llPath,
                                   resolvedTarget project.targetDefault targetFlag host,
                                   symbolPfx file, args.start, args.format⟩
                                match w.analyzeResult with
                                | .ok ec =>
                                  { outcome := .ok ec, spawns := sp2, echoed := ro.echoed,
                                    touched := touchedFiles, analyzeCall := some call,
                                    verboseOut := vOut }
                                | .error e =>
                                  { outcome := .err e, spawns := sp2, echoed := ro.echoed,
                                    touched := touchedFiles, analyzeCall := some call,
                                    verboseOut := vOut }
                        else
                          { outcome := .ok (status.getD 1), spawns := sp2,
                            echoed := ro.echoed, touched := touchedFiles,
                            analyzeCall := none, verboseOut := vOut }

/-- What the process finally prints and the exit code it reports. -/
structure Surfaced where
  finalLines : List String
  exitCode : Int
deriving DecidableEq

/-- Process-level surfacing: `Ok(ec)` exits with `ec`; `Err(e)` prints one
line "error: " ++ e and exits 1 (src/main.rs lines 59-67); an `expect`
failure unwinds past `main`, the Rust runtime prints a panic report of its
own and the process exits with the panic exit code 101. -/
def surfaced (r : RunResult) : Surfaced :=
  match r.outcome with
  | .ok ec => ⟨[], ec⟩
  | .err e => ⟨["error: " ++ e], 1⟩
  | .panicked msg => ⟨["thread panicked at src/main.rs: " ++ msg], 101⟩

/-- A line the reader loop echoes: neither marker matches it. -/
def keepLine (ma : Markers) (l : String) : Bool :=
  !(strStartsWith l ma.rlibMarker) && !(strStartsWith l ma.llMarker)

/-- The three mutually exclusive per-line outcomes of the reader loop. -/
inductive LineClass where
  | toRlib
  | toLl
  | toEcho
deriving DecidableEq

/-- Per-line classification in the branch order of the loop: the rlib marker
is tested first. -/
def classify (ma : Markers) (l : String) : LineClass :=
  if strStartsWith l ma.rlibMarker then .toRlib
  else if strStartsWith l ma.llMarker then .toLl
  else .toEcho

/-- Accumulated rlib slot over a list of successfully read lines. -/
def rlibStore (ma : Markers) (lines : List String) (r : Option String) : Option String :=
  lines.foldl
    (fun a l =>
      if strStartsWith l ma.rlibMarker then some (strDropLen l ma.rlibMarker) else a) r

/-- Accumulated ll slot over a list of successfully read lines; the rlib
branch shadows the ll branch. -/
def llStore (ma : Markers) (lines : List String) (s : Option String) : Option String :=
  lines.foldl
    (fun a l =>
      if !(strStartsWith l ma.rlibMarker) && strStartsWith l ma.llMarker
      then some (strDropLen l ma.llMarker) else a) s

/-- Concrete marker strings standing in for the two wrapper constants. -/
def maC : Markers := ⟨"RLIB:", "LL:"⟩

def argsBin : Args := ⟨none, some "app", none, none, false, false, "dot", none⟩

def argsNeither : Args := ⟨none, none, none, none, false, false, "dot", none⟩

def argsC1 : Args := ⟨some "thumbv7m-none-eabi", some "app", none, none, false, false, "dot", none⟩

/-- A run whose build succeeds but never emits a marker line. -/
def wNoMarkers : World :=
  ⟨false, .ok 0, .ok ⟨"x86_64-unknown-linux-gnu"⟩, .ok "/proj", .ok ⟨none, "/proj"⟩,
   .ok ["target_os=\"linux\""], .ok "/usr/bin/cargo-call-stack", fun _ => true, true, [], [],
   .ok (), [.ok "Compiling app v0.1.0"], .ok (some 0), .ok "/proj/target/release/app", .ok 0⟩

/-- A fully successful run in a project whose default target differs from the
explicit --target flag of `argsC1`. -/
def wC1 : World :=
  ⟨false, .ok 0, .ok ⟨"x86_64-apple-darwin"⟩, .ok "/proj",
   .ok ⟨some "x86_64-unknown-linux-gnu", "/proj"⟩,
   .ok ["target_os=\"linux\""], .ok "/usr/bin/cargo-call-stack", fun _ => true, true, [], [],
   .ok (), [.ok "RLIB:/t/libcompiler_builtins.rlib", .ok "LL:/t/compiler_builtins.ll"],
   .ok (some 0), .ok "/proj/target/release/app", .ok 0⟩

/-- A run whose build child exits with code 3. -/
def wExit3 : World :=
  ⟨false, .ok 0, .ok ⟨"x86_64-unknown-linux-gnu"⟩, .ok "/proj", .ok ⟨none, "/proj"⟩,
   .ok ["target_os=\"linux\""], .ok "/usr/bin/cargo-call-stack", fun _ => true, true, [], [],
   .ok (), [.ok "error[E0308]: mismatched types"], .ok (some 3),
   .ok "/proj/target/release/app", .ok 0⟩

/-- A run whose build child terminates without an exit code. -/
def wSignal : World :=
  ⟨false, .ok 0, .ok ⟨"x86_64-unknown-linux-gnu"⟩, .ok "/proj", .ok ⟨none, "/proj"⟩,
   .ok ["target_os=\"linux\""], .ok "/usr/bin/cargo-call-stack", fun _ => true, true, [], [],
   .ok (), [], .ok none, .ok "/proj/target/release/app", .ok 0⟩

theorem readLoop_map_ok (ma : Markers) (lines : List String) (r l : Option String)
    (acc : List String) :
    readLoop ma (lines.map Except.ok) r l acc =
      ⟨rlibStore ma lines r, llStore ma lines l, acc ++ lines.filter (keepLine ma), none⟩ := by
  induction lines generalizing r l acc with
  | nil => simp [readLoop, rlibStore, llStore]
  | cons x xs ih =>
    simp only [List.map_cons, readLoop]
    by_cases h1 : strStartsWith x ma.rlibMarker = true
    · simp [h1, ih, rlibStore, llStore, keepLine, List.filter_cons]
    · by_cases h2 : strStartsWith x ma.llMarker = true
      · simp [h1, h2, ih, rlibStore, llStore, keepLine, List.filter_cons]
      · simp only [Bool.not_eq_true] at h1 h2
        simp [h1, h2, ih, rlibStore, llStore, keepLine, List.filter_cons]

theorem foldl_lastMatch (p : String → Bool) (f : String → String) (lines : List String)
    (r : Option String) :
    lines.foldl (fun a l => if p l then some (f l) else a) r =
      match (lines.filter p).getLast? with
      | some l => some (f l)
      | none => r := by
  induction lines using List.reverseRecOn with
  | nil => simp
  | append_singleton xs x ih =>
    by_cases hx : p x = true
    · simp [List.foldl_append, hx, List.filter_append, List.getLast?_concat]
    · simp only [Bool.not_eq_true] at hx
      simp [List.foldl_append, hx, List.filter_append, ih]

theorem rlibStore_eq (ma : Markers) (lines : List String) :
    rlibStore ma lines none =
      ((lines.filter fun l => strStartsWith l ma.rlibMarker).getLast?).map
        (fun l => strDropLen l ma.rlibMarker) := by
  rw [rlibStore, foldl_lastMatch]
  cases (lines.filter fun l => strStartsWith l ma.rlibMarker).getLast? <;> simp

theorem llStore_eq (ma : Markers) (lines : List String) :
    llStore ma lines none =
      ((lines.filter fun l =>
          !(strStartsWith l ma.rlibMarker) && strStartsWith l ma.llMarker).getLast?).map
        (fun l => strDropLen l ma.llMarker) := by
  rw [llStore, foldl_lastMatch]
  cases (lines.filter fun l =>
      !(strStartsWith l ma.rlibMarker) && strStartsWith l ma.llMarker).getLast? <;> simp

/-- Two leading patterns of the same line are comparable, so when neither
marker is a leading pattern of the other no line matches both. -/
theorem not_both_markers (ma : Markers)
    (h1 : strStartsWith ma.llMarker ma.rlibMarker = false)
    (h2 : strStartsWith ma.rlibMarker ma.llMarker = false) (l : String) :
    ¬(strStartsWith l ma.rlibMarker = true ∧ strStartsWith l ma.llMarker = true) := by
  rintro ⟨hr, hl⟩
  rw [strStartsWith, List.isPrefixOf_iff_prefix] at hr hl
  rcases List.prefix_or_prefix_of_prefix hr hl with h | h
  · rw [strStartsWith, Bool.eq_false_iff] at h1
    exact h1 (List.isPrefixOf_iff_prefix.mpr h)
  · rw [strStartsWith, Bool.eq_false_iff] at h2
    exact h2 (List.isPrefixOf_iff_prefix.mpr h)

/-- C3: for every invocation in normal mode where neither or both of the
selectors --bin and --example are given, the run fails with the configuration error before
spawning any subprocess: no toolchain probe, no build, nothing touched, no
analyzer call. -/
theorem c3_config_error_before_spawn (ma : Markers) (args : Args) (w : World)
    (hw : w.wrapperEnvSet = false)
    (hsel : (args.example_ = none ∧ args.bin = none) ∨
            (args.example_.isSome ∧ args.bin.isSome)) :
    (run ma args w).outcome = .err "Please specify either --example <NAME> or --bin <NAME>."
    ∧ (run ma args w).spawns = []
    ∧ (run ma args w).touched = []
    ∧ (run ma args w).analyzeCall = none := by
  have hfs : fileSel args = none := by
    rcases hsel with ⟨h1, h2⟩ | ⟨h1, h2⟩
    · simp [fileSel, h1, h2]
    · rcases Option.isSome_iff_exists.mp h1 with ⟨a, ha⟩
      rcases Option.isSome_iff_exists.mp h2 with ⟨b, hb⟩
      simp [fileSel, ha, hb]
  simp [run, hw, hfs]

theorem c3_witness :
    (run maC argsNeither wNoMarkers).outcome =
        .err "Please specify either --example <NAME> or --bin <NAME>."
    ∧ (run maC argsNeither wNoMarkers).spawns = []
    ∧ (run maC argsNeither wNoMarkers).touched = []
    ∧ (run maC argsNeither wNoMarkers).analyzeCall = none :=
  c3_config_error_before_spawn maC argsNeither wNoMarkers rfl (Or.inl ⟨rfl, rfl⟩)

/-- C8: the derived symbol-disambiguation string equals the artifact name
with every hyphen replaced by an underscore followed by exactly one trailing
separator character: its characters are the hyphen-to-underscore image of
the name plus a final separator, the body before that separator contains no
hyphen, and the length grows by exactly one. -/
theorem c8_disambiguation (file : String) :
    (symbolPfx file).data = (file.data.map fun c => if c = '-' then '_' else c) ++ ['-']
    ∧ (symbolPfx file).data.getLast? = some '-'
    ∧ '-' ∉ (symbolPfx file).data.dropLast
    ∧ (symbolPfx file).data.length = file.data.length + 1 := by
  have hd : (symbolPfx file).data
      = (file.data.map fun c => if c = '-' then '_' else c) ++ ['-'] := rfl
  refine ⟨hd, ?_, ?_, ?_⟩
  · rw [hd]; exact List.getLast?_concat _
  · rw [hd, List.dropLast_concat]
    intro hmem
    rcases List.mem_map.mp hmem with ⟨c, _, hc⟩
    by_cases h : c = '-'
    · rw [if_pos h] at hc; exact absurd hc (by decide)
    · rw [if_neg h] at hc; exact h hc
  · rw [hd]; simp

/-- C1 (evidence for a code bug): at src/main.rs lines 91 and 217 the
resolution is project.target().or(target_flag).unwrap_or(host), so the
project default target takes precedence over the explicit --target flag;
with the explicit flag "thumbv7m-none-eabi" of `argsC1` and the project
default "x86_64-unknown-linux-gnu" of `wC1`, the triple handed to the
analyzer is the project default and not the flag. -/
theorem c1_project_default_wins :
    resolvedTarget (some "x86_64-unknown-linux-gnu") (some "thumbv7m-none-eabi")
        "x86_64-apple-darwin" = "x86_64-unknown-linux-gnu"
    ∧ argsC1.target = some "thumbv7m-none-eabi"
    ∧ ((run maC argsC1 wC1).analyzeCall.map AnalyzeCall.target)
        = some "x86_64-unknown-linux-gnu" :=
  ⟨rfl, rfl, rfl⟩

/-- C4: for every run in which the build child exits with a nonzero exit
code, the analyzer is never invoked and the reported exit code equals the
child's exit code. -/
theorem c4_nonzero_exit_propagated (ma : Markers) (args : Args) (w : World)
    (file : String) (mt : Meta) (cwd : String) (proj : Project) (cfg : List String)
    (exe : String) (ts : List String) (c : Int)
    (hw : w.wrapperEnvSet = false)
    (hsel : fileSel args = some file)
    (hvm : w.versionMeta = .ok mt)
    (hcd : w.currentDir = .ok cwd)
    (hpq : w.projectQuery = .ok proj)
    (hcfg : w.rustcCfgOut = .ok cfg)
    (hexe : w.currentExe = .ok exe)
    (htc : forceRebuild w.touchOk w.srcDirExists w.walkSrc w.walkRoot proj.rootPath = .ok ts)
    (hsp : w.spawnResult = .ok ())
    (hrd : (readLoop ma w.stderrItems none none []).readErr = none)
    (hwt : w.waitResult = .ok (some c))
    (hc : c ≠ 0) :
    (run ma args w).analyzeCall = none
    ∧ (run ma args w).outcome = .ok c
    ∧ (surfaced (run ma args w)).exitCode = c := by
  simp [run, hw, hsel, hvm, hcd, hpq, hcfg, hexe, htc, hsp, hrd, hwt, statusSuccess, hc,
    surfaced]

theorem c4_witness :
    (run maC argsBin wExit3).analyzeCall = none
    ∧ (run maC argsBin wExit3).outcome = .ok 3
    ∧ (surfaced (run maC argsBin wExit3)).exitCode = 3 :=
  c4_nonzero_exit_propagated maC argsBin wExit3 "app" ⟨"x86_64-unknown-linux-gnu"⟩
    "/proj" ⟨none, "/proj"⟩ ["target_os=\"linux\""] "/usr/bin/cargo-call-stack"
    ["/proj/src/main.rs"] 3 rfl rfl rfl rfl rfl rfl rfl rfl rfl rfl rfl (by decide)

/-- C9: when the build child terminates unsuccessfully without an exit code
(for example, killed by a signal), the run reports exit code 1: it neither
fails nor reports 0, and the analyzer is not invoked. -/
theorem c9_signal_reports_one (ma : Markers) (args : Args) (w : World)
    (file : String) (mt : Meta) (cwd : String) (proj : Project) (cfg : List String)
    (exe : String) (ts : List String)
    (hw : w.wrapperEnvSet = false)
    (hsel : fileSel args = some file)
    (hvm : w.versionMeta = .ok mt)
    (hcd : w.currentDir = .ok cwd)
    (hpq : w.projectQuery = .ok proj)
    (hcfg : w.rustcCfgOut = .ok cfg)
    (hexe : w.currentExe = .ok exe)
    (htc : forceRebuild w.touchOk w.srcDirExists w.walkSrc w.walkRoot proj.rootPath = .ok ts)
    (hsp : w.spawnResult = .ok ())
    (hrd : (readLoop ma w.stderrItems none none []).readErr = none)
    (hwt : w.waitResult = .ok none) :
    (run ma args w).analyzeCall = none
    ∧ (run ma args w).outcome = .ok 1
    ∧ (surfaced (run ma args w)).exitCode = 1 := by
  simp [run, hw, hsel, hvm, hcd, hpq, hcfg, hexe, htc, hsp, hrd, hwt, statusSuccess,
    surfaced]

theorem c9_witness :
    (run maC argsBin wSignal).analyzeCall = none
    ∧ (run maC argsBin wSignal).outcome = .ok 1
    ∧ (surfaced (run maC argsBin wSignal)).exitCode = 1 :=
  c9_signal_reports_one maC argsBin wSignal "app" ⟨"x86_64-unknown-linux-gnu"⟩
    "/proj" ⟨none, "/proj"⟩ ["target_os=\"linux\""] "/usr/bin/cargo-call-stack"
    ["/proj/src/main.rs"] rfl rfl rfl rfl rfl rfl rfl rfl rfl rfl rfl

/-- C2 counterexample: a run whose build exits 0 without any marker line
does not invoke the analyzer, but the failure is an expect panic (exit code
101) whose report is not an "error:"-prefixed line, refuting the claimed
surfacing. -/
theorem c2_counterexample :
    (run maC argsBin wNoMarkers).analyzeCall = none
    ∧ (run maC argsBin wNoMarkers).outcome = .panicked "`compiler_builtins` was not linked"
    ∧ (surfaced (run maC argsBin wNoMarkers)).exitCode = 101
    ∧ ∀ l ∈ (surfaced (run maC argsBin wNoMarkers)).finalLines,
        strStartsWith l "error:" = false := by
  refine ⟨rfl, rfl, rfl, ?_⟩
  decide

/-- C2 amended: for every run in which the build child exits with status
zero but one or both marker slots were never filled, the analyzer is not
invoked and the program fails by panicking with one of the two
missing-artifact messages and the nonzero panic exit code 101; the report
is a panic line, not an "error:"-prefixed line. -/
theorem c2_amended_panic (ma : Markers) (args : Args) (w : World)
    (file : String) (mt : Meta) (cwd : String) (proj : Project) (cfg : List String)
    (exe : String) (ts : List String) (st : ExitStatus)
    (hw : w.wrapperEnvSet = false)
    (hsel : fileSel args = some file)
    (hvm : w.versionMeta = .ok mt)
    (hcd : w.currentDir = .ok cwd)
    (hpq : w.projectQuery = .ok proj)
    (hcfg : w.rustcCfgOut = .ok cfg)
    (hexe : w.currentExe = .ok exe)
    (htc : forceRebuild w.touchOk w.srcDirExists w.walkSrc w.walkRoot proj.rootPath = .ok ts)
    (hsp : w.spawnResult = .ok ())
    (hrd : (readLoop ma w.stderrItems none none []).readErr = none)
    (hwt : w.waitResult = .ok st)
    (hst : statusSuccess st = true)
    (hmiss : (readLoop ma w.stderrItems none none []).rlib = none ∨
             (readLoop ma w.stderrItems none none []).ll = none) :
    (run ma args w).analyzeCall = none
    ∧ ((run ma args w).outcome = .panicked "`compiler_builtins` was not linked"
       ∨ (run ma args w).outcome = .panicked "`compiler_builtins` LLVM IR unavailable")
    ∧ (surfaced (run ma args w)).exitCode = 101
    ∧ (surfaced (run ma args w)).exitCode ≠ 0
    ∧ ∀ l ∈ (surfaced (run ma args w)).finalLines,
        strStartsWith l "error:" = false := by
  cases hrl : (readLoop ma w.stderrItems none none []).rlib with
  | none =>
    have hout : (run ma args w).outcome = .panicked "`compiler_builtins` was not linked" := by
      simp [run, hw, hsel, hvm, hcd, hpq, hcfg, hexe, htc, hsp, hrd, hwt, hst, hrl]
    have hcall : (run ma args w).analyzeCall = none := by
      simp [run, hw, hsel, hvm, hcd, hpq, hcfg, hexe, htc, hsp, hrd, hwt, hst, hrl]
    refine ⟨hcall, Or.inl hout, ?_, ?_, ?_⟩
    · simp [surfaced, hout]
    · simp [surfaced, hout]
    · simp only [surfaced, hout]
      intro l hl
      simp only [List.mem_singleton] at hl
      subst hl
      decide
  | some p =>
    have hll : (readLoop ma w.stderrItems none none []).ll = none := by
      rcases hmiss with h | h
      · rw [hrl] at h; exact absurd h (by simp)
      · exact h
    have hout : (run ma args w).outcome = .panicked "`compiler_builtins` LLVM IR unavailable" := by
      simp [run, hw, hsel, hvm, hcd, hpq, hcfg, hexe, htc, hsp, hrd, hwt, hst, hrl, hll]
    have hcall : (run ma args w).analyzeCall = none := by
      simp [run, hw, hsel, hvm, hcd, hpq, hcfg, hexe, htc, hsp, hrd, hwt, hst, hrl, hll]
    refine ⟨hcall, Or.inr hout, ?_, ?_, ?_⟩
    · simp [surfaced, hout]
    · simp [surfaced, hout]
    · simp only [surfaced, hout]
      intro l hl
      simp only [List.mem_singleton] at hl
      subst hl
      decide

theorem c2_amended_witness :
    (run maC argsBin wNoMarkers).analyzeCall = none
    ∧ ((run maC argsBin wNoMarkers).outcome = .panicked "`compiler_builtins` was not linked"
       ∨ (run maC argsBin wNoMarkers).outcome = .panicked "`compiler_builtins` LLVM IR unavailable")
    ∧ (surfaced (run maC argsBin wNoMarkers)).exitCode = 101
    ∧ (surfaced (run maC argsBin wNoMarkers)).exitCode ≠ 0
    ∧ ∀ l ∈ (surfaced (run maC argsBin wNoMarkers)).finalLines,
        strStartsWith l "error:" = false :=
  c2_amended_panic maC argsBin wNoMarkers "app" ⟨"x86_64-unknown-linux-gnu"⟩ "/proj"
    ⟨none, "/proj"⟩ ["target_os=\"linux\""] "/usr/bin/cargo-call-stack"
    ["/proj/src/main.rs"] (some 0) rfl rfl rfl rfl rfl rfl rfl rfl rfl rfl rfl rfl
    (Or.inl rfl)

theorem classify_toRlib (ma : Markers) (l : String) :
    (classify ma l == LineClass.toRlib) = strStartsWith l ma.rlibMarker := by
  by_cases hr : strStartsWith l ma.rlibMarker = true
  · simp [classify, hr]
  · simp only [Bool.not_eq_true] at hr
    by_cases hl : strStartsWith l ma.llMarker = true
    · simp [classify, hr, hl]
    · simp only [Bool.not_eq_true] at hl
      simp [classify, hr, hl]

theorem classify_toLl (ma : Markers) (l : String) :
    (classify ma l == LineClass.toLl)
      = (!(strStartsWith l ma.rlibMarker) && strStartsWith l ma.llMarker) := by
  by_cases hr : strStartsWith l ma.rlibMarker = true
  · simp [classify, hr]
  · simp only [Bool.not_eq_true] at hr
    by_cases hl : strStartsWith l ma.llMarker = true
    · simp [classify, hr, hl]
    · simp only [Bool.not_eq_true] at hl
      simp [classify, hr, hl]

theorem classify_toEcho (ma : Markers) (l : String) :
    (classify ma l == LineClass.toEcho) = keepLine ma l := by
  by_cases hr : strStartsWith l ma.rlibMarker = true
  · simp [classify, keepLine, hr]
  · simp only [Bool.not_eq_true] at hr
    by_cases hl : strStartsWith l ma.llMarker = true
    · simp [classify, keepLine, hr, hl]
    · simp only [Bool.not_eq_true] at hl
      simp [classify, keepLine, hr, hl]

theorem walkTouch_ok_spec (touchOk : String → Bool) (entries : List String) :
    (entries.find? rsExt = none → walkTouch touchOk (entries.map Except.ok) = .ok [])
    ∧ ∀ p, entries.find? rsExt = some p → touchOk p = true →
        walkTouch touchOk (entries.map Except.ok) = .ok [p] := by
  induction entries with
  | nil =>
    refine ⟨fun _ => rfl, fun p h => ?_⟩
    simp [List.find?] at h
  | cons x xs ih =>
    constructor
    · intro h
      by_cases hx : rsExt x = true
      · simp [List.find?_cons, hx] at h
      · simp only [Bool.not_eq_true] at hx
        simp only [List.find?_cons, hx, Bool.false_eq_true, if_false] at h
        simpa [walkTouch, hx] using ih.1 h
    · intro p h hp
      by_cases hx : rsExt x = true
      · simp only [List.find?_cons, hx, if_pos, Option.some.injEq] at h
        subst h
        simp [walkTouch, hx, hp]
      · simp only [Bool.not_eq_true] at hx
        simp only [List.find?_cons, hx, Bool.false_eq_true, if_false] at h
        simpa [walkTouch, hx] using ih.2 p h hp

theorem targetOsNone_line (l : String) :
    (strStartsWith l "target_os=" && strDropLen l "target_os=" == "\"none\"") = true
      ↔ l = "target_os=\"none\"" := by
  constructor
  · intro h
    rw [Bool.and_eq_true] at h
    rcases h with ⟨hpre, hval⟩
    rw [strStartsWith, List.isPrefixOf_iff_prefix] at hpre
    rcases hpre with ⟨t, ht⟩
    have hdrop : strDropLen l "target_os=" = "\"none\"" := eq_of_beq hval
    rw [strDropLen, ← ht, List.drop_left] at hdrop
    have htv : t = ("\"none\"" : String).data := congrArg String.data hdrop
    apply String.ext
    rw [← ht, htv]
    decide
  · intro h; subst h; decide

/-- C5: over any successfully read diagnostic stream, with marker strings
that are not leading patterns of one another, the reader echoes exactly the
lines matching neither marker, verbatim and in original order with no
duplication and no loss; a line matching a marker is not echoed; and a
marker occurring on exactly one line leaves in its slot exactly the suffix
of that line after the marker. -/
theorem c5_reader_echo_and_extract (ma : Markers) (lines : List String)
    (h1 : strStartsWith ma.llMarker ma.rlibMarker = false)
    (h2 : strStartsWith ma.rlibMarker ma.llMarker = false) :
    (readLoop ma (lines.map Except.ok) none none []).echoed
        = lines.filter (keepLine ma)
    ∧ (∀ l ∈ lines, strStartsWith l ma.rlibMarker = true →
        l ∉ (readLoop ma (lines.map Except.ok) none none []).echoed)
    ∧ (∀ l ∈ lines, strStartsWith l ma.llMarker = true →
        l ∉ (readLoop ma (lines.map Except.ok) none none []).echoed)
    ∧ (∀ l, lines.filter (fun x => strStartsWith x ma.rlibMarker) = [l] →
        (readLoop ma (lines.map Except.ok) none none []).rlib
          = some (strDropLen l ma.rlibMarker))
    ∧ (∀ l, lines.filter (fun x => strStartsWith x ma.llMarker) = [l] →
        (readLoop ma (lines.map Except.ok) none none []).ll
          = some (strDropLen l ma.llMarker)) := by
  have hread := readLoop_map_ok ma lines none none []
  have hnb := not_both_markers ma h1 h2
  have hfeq : lines.filter (fun x => !(strStartsWith x ma.rlibMarker)
        && strStartsWith x ma.llMarker)
      = lines.filter (fun x => strStartsWith x ma.llMarker) := by
    apply List.filter_congr
    intro x _
    by_cases hx : strStartsWith x ma.llMarker = true
    · have hr : strStartsWith x ma.rlibMarker = false := by
        rcases Bool.eq_false_or_eq_true (strStartsWith x ma.rlibMarker) with h | h
        · exact absurd ⟨h, hx⟩ (hnb x)
        · exact h
      simp [hx, hr]
    · simp only [Bool.not_eq_true] at hx
      simp [hx]
  refine ⟨?_, ?_, ?_, ?_, ?_⟩
  · rw [hread]; rfl
  · intro l _ hls
    rw [hread]
    show l ∉ [] ++ lines.filter (keepLine ma)
    rw [List.nil_append]
    intro hmem
    have hk := (List.mem_filter.mp hmem).2
    simp [keepLine, hls] at hk
  · intro l _ hls
    rw [hread]
    show l ∉ [] ++ lines.filter (keepLine ma)
    rw [List.nil_append]
    intro hmem
    have hk := (List.mem_filter.mp hmem).2
    simp [keepLine, hls] at hk
  · intro l hfil
    rw [hread]
    show rlibStore ma lines none = some (strDropLen l ma.rlibMarker)
    rw [rlibStore_eq, hfil]
    simp
  · intro l hfil
    rw [hread]
    show llStore ma lines none = some (strDropLen l ma.llMarker)
    rw [llStore_eq, hfeq, hfil]
    simp

theorem c5_witness :
    (readLoop maC (["info", "RLIB:/a/lib.rlib", "warn", "LL:/a/cb.ll"].map Except.ok)
        none none []).echoed = ["info", "warn"]
    ∧ (readLoop maC (["info", "RLIB:/a/lib.rlib", "warn", "LL:/a/cb.ll"].map Except.ok)
        none none []).rlib = some "/a/lib.rlib"
    ∧ (readLoop maC (["info", "RLIB:/a/lib.rlib", "warn", "LL:/a/cb.ll"].map Except.ok)
        none none []).ll = some "/a/cb.ll" := by
  have h := c5_reader_echo_and_extract maC
    ["info", "RLIB:/a/lib.rlib", "warn", "LL:/a/cb.ll"] rfl rfl
  refine ⟨?_, ?_, ?_⟩
  · rw [h.1]; decide
  · have := h.2.2.2.1 "RLIB:/a/lib.rlib" (by decide)
    simpa using this
  · have := h.2.2.2.2 "LL:/a/cb.ll" (by decide)
    simpa using this

/-- C10: each successfully read line is processed into exactly one of three
mutually exclusive outcomes (rlib slot, ll slot, echo), with the rlib
marker tested first; the echo stream is exactly the lines classified as
echo, and each slot holds the suffix of the last line classified to it, so
a later occurrence of the same marker overwrites an earlier one. -/
theorem c10_trichotomy_last_wins (ma : Markers) (lines : List String)
    (h1 : strStartsWith ma.llMarker ma.rlibMarker = false)
    (h2 : strStartsWith ma.rlibMarker ma.llMarker = false) :
    (∀ l : String,
        (strStartsWith l ma.rlibMarker = true → classify ma l = .toRlib)
        ∧ (strStartsWith l ma.rlibMarker = false → strStartsWith l ma.llMarker = true →
            classify ma l = .toLl)
        ∧ (strStartsWith l ma.rlibMarker = false → strStartsWith l ma.llMarker = false →
            classify ma l = .toEcho)
        ∧ ¬(strStartsWith l ma.rlibMarker = true ∧ strStartsWith l ma.llMarker = true))
    ∧ (readLoop ma (lines.map Except.ok) none none []).echoed
        = lines.filter (fun l => classify ma l == LineClass.toEcho)
    ∧ (readLoop ma (lines.map Except.ok) none none []).rlib
        = ((lines.filter fun l => classify ma l == LineClass.toRlib).getLast?).map
            (fun l => strDropLen l ma.rlibMarker)
    ∧ (readLoop ma (lines.map Except.ok) none none []).ll
        = ((lines.filter fun l => classify ma l == LineClass.toLl).getLast?).map
            (fun l => strDropLen l ma.llMarker) := by
  have hread := readLoop_map_ok ma lines none none []
  refine ⟨?_, ?_, ?_, ?_⟩
  · intro l
    refine ⟨?_, ?_, ?_, not_both_markers ma h1 h2 l⟩
    · intro hr; simp [classify, hr]
    · intro hr hl; simp [classify, hr, hl]
    · intro hr hl; simp [classify, hr, hl]
  · rw [hread]
    show [] ++ lines.filter (keepLine ma) = _
    rw [List.nil_append]
    apply List.filter_congr
    intro x _
    rw [classify_toEcho]
  · rw [hread]
    show rlibStore ma lines none = _
    have hf : (lines.filter fun l => strStartsWith l ma.rlibMarker)
        = lines.filter (fun l => classify ma l == LineClass.toRlib) := by
      apply List.filter_congr
      intro x _
      rw [classify_toRlib]
    rw [rlibStore_eq, hf]
  · rw [hread]
    show llStore ma lines none = _
    have hf : (lines.filter fun l =>
          !(strStartsWith l ma.rlibMarker) && strStartsWith l ma.llMarker)
        = lines.filter (fun l => classify ma l == LineClass.toLl) := by
      apply List.filter_congr
      intro x _
      rw [classify_toLl]
    rw [llStore_eq, hf]

theorem c10_witness :
    (readLoop maC (["RLIB:/first.rlib", "note", "RLIB:/second.rlib", "LL:/a.ll"].map
        Except.ok) none none []).rlib = some "/second.rlib"
    ∧ (readLoop maC (["RLIB:/first.rlib", "note", "RLIB:/second.rlib", "LL:/a.ll"].map
        Except.ok) none none []).ll = some "/a.ll"
    ∧ (readLoop maC (["RLIB:/first.rlib", "note", "RLIB:/second.rlib", "LL:/a.ll"].map
        Except.ok) none none []).echoed = ["note"] := by
  have h := c10_trichotomy_last_wins maC
    ["RLIB:/first.rlib", "note", "RLIB:/second.rlib", "LL:/a.ll"] rfl rfl
  refine ⟨?_, ?_, ?_⟩
  · rw [h.2.2.1]; decide
  · rw [h.2.2.2]; decide
  · rw [h.2.1]; decide

/-- C6: the rebuild forcer touches the binary entry file src/main.rs when
setting its times succeeds; only when that fails does it touch the library
entry file src/lib.rs; only when both fail does it fall back to the walk of
the source directory (or of the project root when no source directory
exists), and that walk touches the first entry carrying the source
extension "rs" and no other file. -/
theorem c6_rebuild_forcing (touchOk : String → Bool) (srcExists : Bool)
    (walkS walkR : List (Except String String)) (root : String) :
    (touchOk (root ++ "/src/main.rs") = true →
      forceRebuild touchOk srcExists walkS walkR root = .ok [root ++ "/src/main.rs"])
    ∧ (touchOk (root ++ "/src/main.rs") = false →
       touchOk (root ++ "/src/lib.rs") = true →
      forceRebuild touchOk srcExists walkS walkR root = .ok [root ++ "/src/lib.rs"])
    ∧ (touchOk (root ++ "/src/main.rs") = false →
       touchOk (root ++ "/src/lib.rs") = false →
      forceRebuild touchOk srcExists walkS walkR root
        = walkTouch touchOk (if srcExists then walkS else walkR))
    ∧ (∀ entries : List String,
        entries.find? rsExt = none → walkTouch touchOk (entries.map Except.ok) = .ok [])
    ∧ (∀ (entries : List String) (p : String),
        entries.find? rsExt = some p → touchOk p = true →
        walkTouch touchOk (entries.map Except.ok) = .ok [p]) := by
  refine ⟨?_, ?_, ?_, fun entries => (walkTouch_ok_spec touchOk entries).1,
    fun entries p => (walkTouch_ok_spec touchOk entries).2 p⟩
  · intro h; simp [forceRebuild, h]
  · intro h1 h2; simp [forceRebuild, h1, h2]
  · intro h1 h2; simp [forceRebuild, h1, h2]

theorem c6_witness :
    forceRebuild (fun p => p == "/r/src/x.rs") true
        (["/r/src", "/r/src/x.rs"].map Except.ok) [] "/r"
      = walkTouch (fun p => p == "/r/src/x.rs") (["/r/src", "/r/src/x.rs"].map Except.ok)
    ∧ walkTouch (fun p => p == "/r/src/x.rs") (["/r/src", "/r/src/x.rs"].map Except.ok)
      = .ok ["/r/src/x.rs"] := by
  have h := c6_rebuild_forcing (fun p => p == "/r/src/x.rs") true
      (["/r/src", "/r/src/x.rs"].map Except.ok) [] "/r"
  constructor
  · exact h.2.2.1 (by decide) (by decide)
  · exact h.2.2.2.2 ["/r/src", "/r/src/x.rs"] "/r/src/x.rs" (by decide) (by decide)

/-- C7: the probe reports no-std exactly when the configuration dump holds
the operating-system key with the literal absence value, and the assembled
build invocation always carries a flag requesting a standard-library
rebuild from source: the restricted core,alloc,compiler_builtins set when
the probe reported no-std, the full default set otherwise. -/
theorem c7_build_std (args : Args) (file : String) (cfg : List String) :
    (isNoStd cfg = true ↔ "target_os=\"none\"" ∈ cfg)
    ∧ buildStd (isNoStd cfg) ∈ cargoArgs args file (isNoStd cfg)
    ∧ strStartsWith (buildStd (isNoStd cfg)) "-Zbuild-std" = true
    ∧ (isNoStd cfg = true →
        "-Zbuild-std=core,alloc,compiler_builtins" ∈ cargoArgs args file (isNoStd cfg))
    ∧ (isNoStd cfg = false → "-Zbuild-std" ∈ cargoArgs args file (isNoStd cfg)) := by
  refine ⟨?_, ?_, ?_, ?_, ?_⟩
  · rw [isNoStd, List.any_eq_true]
    constructor
    · rintro ⟨l, hl, hp⟩
      rw [targetOsNone_line] at hp
      subst hp
      exact hl
    · intro h
      exact ⟨_, h, (targetOsNone_line _).mpr rfl⟩
  · simp [cargoArgs]
  · rcases Bool.eq_false_or_eq_true (isNoStd cfg) with h | h <;> rw [h] <;> decide
  · intro h
    rw [h]
    simp [cargoArgs, buildStd]
  · intro h
    rw [h]
    simp [cargoArgs, buildStd]

theorem c7_witness :
    isNoStd ["target_os=\"none\""] = true
    ∧ "-Zbuild-std=core,alloc,compiler_builtins"
        ∈ cargoArgs argsBin "app" (isNoStd ["target_os=\"none\""]) := by
  have h := c7_build_std argsBin "app" ["target_os=\"none\""]
  exact ⟨(h.1).mpr (by decide), h.2.2.2.1 ((h.1).mpr (by decide))⟩

end CargoCallStack

